import Mathlib

/-!
Verification of the greyhound-bins collection-schedule calculator.

The source is `custom_components/greyhound_bins/` (files `const.py` and
`sensor.py`).  Calendar dates are modelled as whole days relative to the Unix
epoch 1970-01-01, so that Python `(d1 - d2).days` is integer subtraction and
`d + timedelta(days=n)` is integer addition; Python floor division `//` is
`Int.fdiv`.  The sensors store a `datetime` at midnight of the collection day,
which carries exactly the same information as the day number, so the state is
modelled by the day number itself.
-/

namespace GreyhoundBins

/-- Conversion of a proleptic-Gregorian calendar date (year, month, day) to a
day count relative to 1970-01-01, the arithmetic behind Python
`datetime.date`. -/
def daysFromCivil (y m d : Int) : Int :=
  let yAdj := if m ≤ 2 then y - 1 else y
  let era := Int.fdiv yAdj 400
  let yoe := yAdj - era * 400
  let mp := if 2 < m then m - 3 else m + 9
  let doy := Int.fdiv (153 * mp + 2) 5 + d - 1
  let doe := yoe * 365 + Int.fdiv yoe 4 - Int.fdiv yoe 100 + doy
  era * 146097 + doe - 719468

/-- Inverse conversion: the (year, month, day) of an epoch day count, used by
the `strftime` renderings of stored dates. -/
def civilFromDays (z : Int) : Int × Int × Int :=
  let z2 := z + 719468
  let era := Int.fdiv z2 146097
  let doe := z2 - era * 146097
  let yoe := Int.fdiv (doe - Int.fdiv doe 1460 + Int.fdiv doe 36524 - Int.fdiv doe 146096) 365
  let y := yoe + era * 400
  let doy := doe - (365 * yoe + Int.fdiv yoe 4 - Int.fdiv yoe 100)
  let mp := Int.fdiv (5 * doy + 2) 153
  let d := doy - Int.fdiv (153 * mp + 2) 5 + 1
  let m := if mp < 10 then mp + 3 else mp - 9
  (if m ≤ 2 then y + 1 else y, m, d)

/-- Weekday names as produced by Python `strftime` directive `%A`. -/
def weekdayNames : List String :=
  ["Monday", "Tuesday", "Wednesday", "Thursday", "Friday", "Saturday", "Sunday"]

/-- Month names as produced by Python `strftime` directive `%B`. -/
def monthNames : List String :=
  ["January", "February", "March", "April", "May", "June",
   "July", "August", "September", "October", "November", "December"]

/-- Two-digit zero padding, as in `strftime` directives `%d` and `%m`. -/
def pad2 (n : Int) : String :=
  if n < 10 then "0" ++ toString n else toString n

/-- `strftime` directive `%A` for an epoch day count (1970-01-01 was a
Thursday, index 3 counting from Monday). -/
def strftimeWeekdayName (z : Int) : String :=
  weekdayNames.getD ((z + 3) % 7).toNat ""

/-- The format `"%A, %d %B %Y"` used for the sensor state. -/
def strftimeDisplay (z : Int) : String :=
  let c := civilFromDays z
  strftimeWeekdayName z ++ ", " ++ pad2 c.2.2 ++ " " ++
    monthNames.getD (c.2.1 - 1).toNat "" ++ " " ++ toString c.1

/-- The format `"%Y-%m-%d"` used for the `collection_date` attribute. -/
def strftimeYmd (z : Int) : String :=
  let c := civilFromDays z
  toString c.1 ++ "-" ++ pad2 c.2.1 ++ "-" ++ pad2 c.2.2

/-- `const.py`: `BLACK_BIN_REFERENCE_DATE = datetime(2026, 1, 1, 0, 0, 0)`;
the sensors take `.date()` before any arithmetic. -/
def BLACK_BIN_REFERENCE_DATE : Int := daysFromCivil 2026 1 1

/-- `const.py`: `COLLECTION_INTERVAL_DAYS = 14`. -/
def COLLECTION_INTERVAL_DAYS : Int := 14

/-- `const.py`: the bin-type enumeration, `BIN_TYPE_BLACK = "black"` and
`BIN_TYPE_GREEN_BROWN = "green_brown"`. -/
inductive BinType where
  | black
  | green_brown
deriving DecidableEq

/-- `sensor.py` `GreyhoundBinSensor._calculate_next_collection`, as a function
of the bin type and of the evaluation date `now_date = dt_util.now().date()`.
The trailing `datetime.combine(next_collection_date, datetime.min.time())`
keeps the same calendar day, which is what the day-count model stores. -/
def GreyhoundBinSensor_calculate_next_collection (bin_type : BinType) (now_date : Int) : Int :=
  let reference_date := BLACK_BIN_REFERENCE_DATE
  let reference := if bin_type = BinType.black then reference_date else reference_date + 7
  let days_since_reference := now_date - reference
  if days_since_reference < 0 then
    reference
  else
    let cycles_passed := Int.fdiv days_since_reference COLLECTION_INTERVAL_DAYS
    let next_collection_date := reference + cycles_passed * COLLECTION_INTERVAL_DAYS
    if next_collection_date < now_date then
      reference + (cycles_passed + 1) * COLLECTION_INTERVAL_DAYS
    else
      next_collection_date

/-- The cycle-calculator pattern shared by both sensor classes, with the
reference date abstracted; each concrete occurrence in `sensor.py` is this
body with a particular reference substituted (proved by `rfl` below). -/
def nextOccurrence (reference now_date : Int) : Int :=
  let days_since_reference := now_date - reference
  if days_since_reference < 0 then
    reference
  else
    let cycles_passed := Int.fdiv days_since_reference COLLECTION_INTERVAL_DAYS
    let next_collection_date := reference + cycles_passed * COLLECTION_INTERVAL_DAYS
    if next_collection_date < now_date then
      reference + (cycles_passed + 1) * COLLECTION_INTERVAL_DAYS
    else
      next_collection_date

/-- The reference date a bin type owns, as selected at the top of
`GreyhoundBinSensor._calculate_next_collection`: the black bin uses
`BLACK_BIN_REFERENCE_DATE` and the green and brown bins use
`reference_date + timedelta(days=7)`. -/
def referenceFor (bin_type : BinType) : Int :=
  if bin_type = BinType.black then BLACK_BIN_REFERENCE_DATE else BLACK_BIN_REFERENCE_DATE + 7

/-- The `next_black` block of `NextCollectionSensor._calculate_next_collection`
in `sensor.py`, verbatim. -/
def NextCollectionSensor_next_black (now_date : Int) : Int :=
  let reference_date := BLACK_BIN_REFERENCE_DATE
  let black_reference := reference_date
  let days_since_black := now_date - black_reference
  if days_since_black < 0 then
    black_reference
  else
    let cycles_passed := Int.fdiv days_since_black COLLECTION_INTERVAL_DAYS
    let next_black := black_reference + cycles_passed * COLLECTION_INTERVAL_DAYS
    if next_black < now_date then
      black_reference + (cycles_passed + 1) * COLLECTION_INTERVAL_DAYS
    else
      next_black

/-- The `next_green_brown` block of
`NextCollectionSensor._calculate_next_collection` in `sensor.py`, verbatim. -/
def NextCollectionSensor_next_green_brown (now_date : Int) : Int :=
  let reference_date := BLACK_BIN_REFERENCE_DATE
  let green_brown_reference := reference_date + 7
  let days_since_green := now_date - green_brown_reference
  if days_since_green < 0 then
    green_brown_reference
  else
    let cycles_passed := Int.fdiv days_since_green COLLECTION_INTERVAL_DAYS
    let next_green_brown := green_brown_reference + cycles_passed * COLLECTION_INTERVAL_DAYS
    if next_green_brown < now_date then
      green_brown_reference + (cycles_passed + 1) * COLLECTION_INTERVAL_DAYS
    else
      next_green_brown

/-- `sensor.py` `NextCollectionSensor._calculate_next_collection`: the two
per-category blocks above followed by the final selection
`if next_black <= next_green_brown` returning the sooner date with its
bin type. -/
def NextCollectionSensor_calculate_next_collection (now_date : Int) : Int × BinType :=
  let next_black := NextCollectionSensor_next_black now_date
  let next_green_brown := NextCollectionSensor_next_green_brown now_date
  if next_black ≤ next_green_brown then
    (next_black, BinType.black)
  else
    (next_green_brown, BinType.green_brown)

/-- Values stored in the `extra_state_attributes` dictionaries: strings,
optional integers (`_days_until` starts as Python `None`), and booleans. -/
inductive AttrValue where
  | s (v : String)
  | oi (v : Option Int)
  | b (v : Bool)
deriving DecidableEq

/-- Mutable state of a `GreyhoundBinSensor`: `_next_collection` and
`_days_until`, both initialised to `None` in `__init__`. -/
structure GreyhoundBinSensorState where
  next_collection : Option Int
  days_until : Option Int
deriving DecidableEq

/-- `GreyhoundBinSensor.native_value`: the display-formatted date when
`_next_collection` is set, `None` otherwise. -/
def GreyhoundBinSensor_native_value (s : GreyhoundBinSensorState) : Option String :=
  match s.next_collection with
  | some next => some (strftimeDisplay next)
  | none => none

/-- `GreyhoundBinSensor.extra_state_attributes`: the empty dictionary when
`_next_collection` is unset, otherwise the five derived attributes, as an
association list in insertion order. -/
def GreyhoundBinSensor_extra_state_attributes (s : GreyhoundBinSensorState) :
    List (String × AttrValue) :=
  match s.next_collection with
  | none => []
  | some next =>
      [("days_until_collection", AttrValue.oi s.days_until),
       ("collection_date", AttrValue.s (strftimeYmd next)),
       ("collection_day", AttrValue.s (strftimeWeekdayName next)),
       ("is_tomorrow", AttrValue.b (s.days_until == some 1)),
       ("is_today", AttrValue.b (s.days_until == some 0))]

/-- `GreyhoundBinSensor.async_update`, with the two `dt_util.now()` reads
identified as a single evaluation date `now_date`: stores the calculated next
collection and the day difference to it. -/
def GreyhoundBinSensor_async_update (bin_type : BinType) (now_date : Int) :
    GreyhoundBinSensorState :=
  let next := GreyhoundBinSensor_calculate_next_collection bin_type now_date
  { next_collection := some next, days_until := some (next - now_date) }

/-- Mutable state of the `NextCollectionSensor`: `_next_collection`,
`_bin_type` and `_days_until`, all initialised to `None`. -/
structure NextCollectionSensorState where
  next_collection : Option Int
  bin_type : Option BinType
  days_until : Option Int
deriving DecidableEq

/-- `NextCollectionSensor.native_value`. -/
def NextCollectionSensor_native_value (s : NextCollectionSensorState) : Option String :=
  match s.next_collection with
  | some next => some (strftimeDisplay next)
  | none => none

/-- `NextCollectionSensor.extra_state_attributes`: empty when unset, otherwise
the bin name plus the five derived attributes. -/
def NextCollectionSensor_extra_state_attributes (s : NextCollectionSensorState) :
    List (String × AttrValue) :=
  match s.next_collection with
  | none => []
  | some next =>
      let bin_name := if s.bin_type == some BinType.black then "Black Bin"
                      else "Green & Brown Bins"
      [("bin_type", AttrValue.s bin_name),
       ("days_until_collection", AttrValue.oi s.days_until),
       ("collection_date", AttrValue.s (strftimeYmd next)),
       ("collection_day", AttrValue.s (strftimeWeekdayName next)),
       ("is_tomorrow", AttrValue.b (s.days_until == some 1)),
       ("is_today", AttrValue.b (s.days_until == some 0))]

/-- `NextCollectionSensor.async_update` at a single evaluation date. -/
def NextCollectionSensor_async_update (now_date : Int) : NextCollectionSensorState :=
  let r := NextCollectionSensor_calculate_next_collection now_date
  { next_collection := some r.1, bin_type := some r.2, days_until := some (r.1 - now_date) }

/-! ### Helper lemmas about the cycle calculator -/

/-- Both branches of `GreyhoundBinSensor._calculate_next_collection` are the
generic calculator applied to the owned reference date. -/
theorem GreyhoundBinSensor_calc_eq_nextOccurrence (b : BinType) (t : Int) :
    GreyhoundBinSensor_calculate_next_collection b t = nextOccurrence (referenceFor b) t := rfl

/-- The `next_black` block is the generic calculator at the black reference. -/
theorem NextCollectionSensor_next_black_eq (t : Int) :
    NextCollectionSensor_next_black t = nextOccurrence BLACK_BIN_REFERENCE_DATE t := rfl

/-- The `next_green_brown` block is the generic calculator at the
green-and-brown reference. -/
theorem NextCollectionSensor_next_green_brown_eq (t : Int) :
    NextCollectionSensor_next_green_brown t = nextOccurrence (BLACK_BIN_REFERENCE_DATE + 7) t := rfl

/-- Closed form of the calculator: the reference before the recurrence starts,
the evaluation date itself when it falls on the lattice, and otherwise the
evaluation date advanced to the next lattice point. -/
theorem nextOccurrence_eq (r t : Int) :
    nextOccurrence r t =
      if t - r < 0 then r
      else if (t - r) % 14 = 0 then t else t + (14 - (t - r) % 14) := by
  unfold nextOccurrence COLLECTION_INTERVAL_DAYS
  rcases lt_or_ge (t - r) 0 with h | h
  · simp [h]
  · rw [if_neg (not_lt.mpr h), if_neg (not_lt.mpr h),
      Int.fdiv_eq_ediv _ (by norm_num : (0:ℤ) ≤ 14)]
    have hdm := Int.ediv_add_emod (t - r) 14
    have h0 := Int.emod_nonneg (t - r) (by norm_num : (14:ℤ) ≠ 0)
    have h14 := Int.emod_lt_of_pos (t - r) (by norm_num : (0:ℤ) < 14)
    dsimp only
    split <;> split <;> omega

/-- The calculator never returns a date before the evaluation date. -/
theorem nextOccurrence_ge (r t : Int) : t ≤ nextOccurrence r t := by
  rw [nextOccurrence_eq]
  have h0 := Int.emod_nonneg (t - r) (by norm_num : (14:ℤ) ≠ 0)
  have h14 := Int.emod_lt_of_pos (t - r) (by norm_num : (0:ℤ) < 14)
  split_ifs <;> omega

/-- The calculator's result lies on the reference lattice, with a nonnegative
cycle index. -/
theorem nextOccurrence_lattice (r t : Int) :
    ∃ k : Int, 0 ≤ k ∧ nextOccurrence r t = r + 14 * k := by
  rw [nextOccurrence_eq]
  have h0 := Int.emod_nonneg (t - r) (by norm_num : (14:ℤ) ≠ 0)
  have h14 := Int.emod_lt_of_pos (t - r) (by norm_num : (0:ℤ) < 14)
  split_ifs with h1 h2
  · exact ⟨0, le_refl 0, by ring⟩
  · exact ⟨(t - r) / 14, by omega, by omega⟩
  · exact ⟨(t - r) / 14 + 1, by omega, by omega⟩

/-- The calculator's result is below every lattice point that is on or after
the evaluation date. -/
theorem nextOccurrence_min (r t k : Int) (hk : 0 ≤ k) (hkt : t ≤ r + 14 * k) :
    nextOccurrence r t ≤ r + 14 * k := by
  rw [nextOccurrence_eq]
  have h0 := Int.emod_nonneg (t - r) (by norm_num : (14:ℤ) ≠ 0)
  have h14 := Int.emod_lt_of_pos (t - r) (by norm_num : (0:ℤ) < 14)
  split_ifs <;> omega

/-- The date component of the dual-category selector is the minimum of the two
per-category results. -/
theorem NextCollectionSensor_fst_eq (t : Int) :
    (NextCollectionSensor_calculate_next_collection t).1 =
      min (nextOccurrence BLACK_BIN_REFERENCE_DATE t)
        (nextOccurrence (BLACK_BIN_REFERENCE_DATE + 7) t) := by
  unfold NextCollectionSensor_calculate_next_collection
  rw [NextCollectionSensor_next_black_eq, NextCollectionSensor_next_green_brown_eq]
  dsimp only
  split_ifs with h
  · exact (min_eq_left h).symm
  · exact (min_eq_right (le_of_lt (not_le.mp h))).symm

/-! ### Claim theorems -/

/-- C1: for each bin type (each reference date realised by the code) and every
evaluation date `t`, `GreyhoundBinSensor._calculate_next_collection` returns,
when `t` is on or after the reference, the smallest lattice date on or after
`t`; when `t` itself lies on the lattice the result is `t` (today counts as
due); and when `t` is before the reference the result is exactly the
reference. -/
theorem C1_calculator_minimal_lattice (b : BinType) (t : Int) :
    (t < referenceFor b →
      GreyhoundBinSensor_calculate_next_collection b t = referenceFor b) ∧
    (referenceFor b ≤ t →
      (∃ k : Int, 0 ≤ k ∧
        GreyhoundBinSensor_calculate_next_collection b t = referenceFor b + 14 * k) ∧
      t ≤ GreyhoundBinSensor_calculate_next_collection b t ∧
      (∀ k : Int, 0 ≤ k → t ≤ referenceFor b + 14 * k →
        GreyhoundBinSensor_calculate_next_collection b t ≤ referenceFor b + 14 * k)) ∧
    (∀ k : Int, 0 ≤ k → t = referenceFor b + 14 * k →
      GreyhoundBinSensor_calculate_next_collection b t = t) := by
  rw [GreyhoundBinSensor_calc_eq_nextOccurrence]
  refine ⟨?_, ?_, ?_⟩
  · intro h
    rw [nextOccurrence_eq, if_pos (by omega)]
  · intro h
    exact ⟨nextOccurrence_lattice _ _, nextOccurrence_ge _ _,
      fun k hk hkt => nextOccurrence_min _ _ k hk hkt⟩
  · intro k hk ht
    have h1 := nextOccurrence_ge (referenceFor b) t
    have h2 := nextOccurrence_min (referenceFor b) t k hk (le_of_eq ht)
    omega

/-- Witness for C1 at the concrete inputs of the spec's worked example:
black bin, evaluated the day after the reference (2026-01-02, day 20455). -/
theorem C1_calculator_minimal_lattice_witness :
    referenceFor BinType.black ≤ 20455 ∧ (0:Int) ≤ 1 ∧
    20455 ≤ referenceFor BinType.black + 14 * 1 ∧
    GreyhoundBinSensor_calculate_next_collection BinType.black 20455 ≤
      referenceFor BinType.black + 14 * 1 :=
  ⟨by decide, by decide, by decide,
    ((C1_calculator_minimal_lattice BinType.black 20455).2.1 (by decide)).2.2
      1 (by decide) (by decide)⟩

/-- C2: the dual-category selector returns the minimum of the next black
occurrence (reference 2026-01-01) and the next green-and-brown occurrence
(reference 2026-01-08); the date is paired with the owning category, black
being selected whenever its date is less than or equal (so on exact ties);
and at the spec's example dates it returns (2026-01-01, Black) and
(2026-01-08, GreenBrown). -/
theorem C2_selector_min_tie_black (t : Int) :
    (NextCollectionSensor_calculate_next_collection t).1 =
      min (nextOccurrence BLACK_BIN_REFERENCE_DATE t)
        (nextOccurrence (BLACK_BIN_REFERENCE_DATE + 7) t) ∧
    (nextOccurrence BLACK_BIN_REFERENCE_DATE t ≤
        nextOccurrence (BLACK_BIN_REFERENCE_DATE + 7) t →
      NextCollectionSensor_calculate_next_collection t =
        (nextOccurrence BLACK_BIN_REFERENCE_DATE t, BinType.black)) ∧
    (nextOccurrence (BLACK_BIN_REFERENCE_DATE + 7) t <
        nextOccurrence BLACK_BIN_REFERENCE_DATE t →
      NextCollectionSensor_calculate_next_collection t =
        (nextOccurrence (BLACK_BIN_REFERENCE_DATE + 7) t, BinType.green_brown)) ∧
    NextCollectionSensor_calculate_next_collection (daysFromCivil 2026 1 1) =
      (daysFromCivil 2026 1 1, BinType.black) ∧
    NextCollectionSensor_calculate_next_collection (daysFromCivil 2026 1 8) =
      (daysFromCivil 2026 1 8, BinType.green_brown) := by
  refine ⟨NextCollectionSensor_fst_eq t, ?_, ?_, by decide, by decide⟩
  · intro h
    unfold NextCollectionSensor_calculate_next_collection
    rw [NextCollectionSensor_next_black_eq, NextCollectionSensor_next_green_brown_eq]
    dsimp only
    rw [if_pos h]
  · intro h
    unfold NextCollectionSensor_calculate_next_collection
    rw [NextCollectionSensor_next_black_eq, NextCollectionSensor_next_green_brown_eq]
    dsimp only
    rw [if_neg (not_le.mpr h)]

/-- Witness for C2 at evaluation date 2026-01-02 (day 20455), where the
green-and-brown date is strictly sooner. -/
theorem C2_selector_min_tie_black_witness :
    nextOccurrence (BLACK_BIN_REFERENCE_DATE + 7) 20455 <
      nextOccurrence BLACK_BIN_REFERENCE_DATE 20455 ∧
    NextCollectionSensor_calculate_next_collection 20455 =
      (nextOccurrence (BLACK_BIN_REFERENCE_DATE + 7) 20455, BinType.green_brown) :=
  ⟨by decide, (C2_selector_min_tie_black 20455).2.2.1 (by decide)⟩

/-- C3: for every evaluation date and each bin category the calculated next
collection is on or after the evaluation date; the same calendar day is
returned as today, never as past. -/
theorem C3_result_not_past (b : BinType) (t : Int) :
    t ≤ GreyhoundBinSensor_calculate_next_collection b t := by
  rw [GreyhoundBinSensor_calc_eq_nextOccurrence]
  exact nextOccurrence_ge _ t

/-- C4: for every evaluation date the difference between the calculator's
result and the owning reference date is divisible by 14, and before the
reference the result is the reference itself (difference zero). -/
theorem C4_lattice_alignment (b : BinType) (t : Int) :
    (GreyhoundBinSensor_calculate_next_collection b t - referenceFor b) % 14 = 0 ∧
    (t < referenceFor b →
      GreyhoundBinSensor_calculate_next_collection b t = referenceFor b) := by
  rw [GreyhoundBinSensor_calc_eq_nextOccurrence]
  constructor
  · obtain ⟨k, _, hk⟩ := nextOccurrence_lattice (referenceFor b) t
    omega
  · intro h
    rw [nextOccurrence_eq, if_pos (by omega)]

/-- Witness for C4: black bin evaluated at day 20000 (2024-10-04), well before
the 2026-01-01 reference. -/
theorem C4_lattice_alignment_witness :
    (GreyhoundBinSensor_calculate_next_collection BinType.black 20000 -
      referenceFor BinType.black) % 14 = 0 ∧
    (20000:Int) < referenceFor BinType.black ∧
    GreyhoundBinSensor_calculate_next_collection BinType.black 20000 =
      referenceFor BinType.black :=
  ⟨(C4_lattice_alignment BinType.black 20000).1, by decide,
    (C4_lattice_alignment BinType.black 20000).2 (by decide)⟩

/-- C5: the calculator is idempotent: re-evaluating on the date it returned
yields that same date. -/
theorem C5_idempotent_fixed_point (b : BinType) (t : Int) :
    GreyhoundBinSensor_calculate_next_collection b
        (GreyhoundBinSensor_calculate_next_collection b t) =
      GreyhoundBinSensor_calculate_next_collection b t := by
  rw [GreyhoundBinSensor_calc_eq_nextOccurrence, GreyhoundBinSensor_calc_eq_nextOccurrence]
  obtain ⟨k, hk, hn⟩ := nextOccurrence_lattice (referenceFor b) t
  have h1 := nextOccurrence_ge (referenceFor b) (nextOccurrence (referenceFor b) t)
  have h2 := nextOccurrence_min (referenceFor b) (nextOccurrence (referenceFor b) t)
    k hk (by omega)
  omega

/-- C6 counterexample: contrary to the claim, there is no evaluation date on
which the two calculator variants disagree — the per-category blocks inside
`NextCollectionSensor._calculate_next_collection` coincide with
`GreyhoundBinSensor._calculate_next_collection` everywhere. -/
theorem C6_variants_disagree_counterexample :
    ¬ ∃ t : Int,
        NextCollectionSensor_next_black t ≠
          GreyhoundBinSensor_calculate_next_collection BinType.black t ∨
        NextCollectionSensor_next_green_brown t ≠
          GreyhoundBinSensor_calculate_next_collection BinType.green_brown t := by
  rintro ⟨t, h | h⟩ <;> exact h rfl

/-- C6 amended: the two calculator variants agree on every evaluation date for
both categories — both use the strict comparison `<` at the same-day boundary;
the `<=` appears only in the dual-category tie-break, which selects the black
category on ties without changing the returned date. -/
theorem C6_variants_agree (t : Int) :
    NextCollectionSensor_next_black t =
      GreyhoundBinSensor_calculate_next_collection BinType.black t ∧
    NextCollectionSensor_next_green_brown t =
      GreyhoundBinSensor_calculate_next_collection BinType.green_brown t ∧
    (NextCollectionSensor_next_black t ≤ NextCollectionSensor_next_green_brown t →
      NextCollectionSensor_calculate_next_collection t =
        (NextCollectionSensor_next_black t, BinType.black)) := by
  refine ⟨rfl, rfl, ?_⟩
  intro h
  unfold NextCollectionSensor_calculate_next_collection
  dsimp only
  rw [if_pos h]

/-- Witness for the amended C6 at evaluation date 2026-01-01 (day 20454),
where the black date 20454 is below the green-and-brown date 20461. -/
theorem C6_variants_agree_witness :
    NextCollectionSensor_next_black 20454 ≤ NextCollectionSensor_next_green_brown 20454 ∧
    NextCollectionSensor_calculate_next_collection 20454 =
      (NextCollectionSensor_next_black 20454, BinType.black) :=
  ⟨by decide, (C6_variants_agree 20454).2.2 (by decide)⟩

/-- C7: after an update at evaluation date `t`, the stored `_days_until` is
exactly the day difference to the computed collection date and is
nonnegative, and the projected attributes hold `is_today` exactly when that
difference is 0 and `is_tomorrow` exactly when it is 1. -/
theorem C7_status_projection (b : BinType) (t : Int) :
    (GreyhoundBinSensor_async_update b t).days_until =
      some (GreyhoundBinSensor_calculate_next_collection b t - t) ∧
    0 ≤ GreyhoundBinSensor_calculate_next_collection b t - t ∧
    GreyhoundBinSensor_extra_state_attributes (GreyhoundBinSensor_async_update b t) =
      [("days_until_collection",
          AttrValue.oi (some (GreyhoundBinSensor_calculate_next_collection b t - t))),
       ("collection_date",
          AttrValue.s (strftimeYmd (GreyhoundBinSensor_calculate_next_collection b t))),
       ("collection_day",
          AttrValue.s (strftimeWeekdayName (GreyhoundBinSensor_calculate_next_collection b t))),
       ("is_tomorrow",
          AttrValue.b (some (GreyhoundBinSensor_calculate_next_collection b t - t) ==
            some 1)),
       ("is_today",
          AttrValue.b (some (GreyhoundBinSensor_calculate_next_collection b t - t) ==
            some 0))] ∧
    ((some (GreyhoundBinSensor_calculate_next_collection b t - t) == some (1:Int)) = true ↔
      GreyhoundBinSensor_calculate_next_collection b t - t = 1) ∧
    ((some (GreyhoundBinSensor_calculate_next_collection b t - t) == some (0:Int)) = true ↔
      GreyhoundBinSensor_calculate_next_collection b t - t = 0) := by
  have hge : t ≤ GreyhoundBinSensor_calculate_next_collection b t := by
    rw [GreyhoundBinSensor_calc_eq_nextOccurrence]
    exact nextOccurrence_ge _ t
  exact ⟨rfl, by omega, rfl, by simp, by simp⟩

/-- C8: before the first update, when `_next_collection` is `None`, both
sensor kinds report `native_value = None` and an empty attribute dictionary,
whatever the other stored fields hold. -/
theorem C8_absent_value_empty_status (du : Option Int) (bt : Option BinType) :
    GreyhoundBinSensor_native_value { next_collection := none, days_until := du } = none ∧
    GreyhoundBinSensor_extra_state_attributes
        { next_collection := none, days_until := du } = [] ∧
    NextCollectionSensor_native_value
        { next_collection := none, bin_type := bt, days_until := du } = none ∧
    NextCollectionSensor_extra_state_attributes
        { next_collection := none, bin_type := bt, days_until := du } = [] :=
  ⟨rfl, rfl, rfl, rfl⟩

/-- C9: the green-and-brown reference is exactly 7 days after the black
reference, and for every evaluation date on or after the green-and-brown
reference the two categories' next collection dates differ by exactly 7 days
in one direction or the other. -/
theorem C9_references_offset_seven (t : Int) :
    referenceFor BinType.green_brown = referenceFor BinType.black + 7 ∧
    (referenceFor BinType.green_brown ≤ t →
      GreyhoundBinSensor_calculate_next_collection BinType.black t -
          GreyhoundBinSensor_calculate_next_collection BinType.green_brown t = 7 ∨
      GreyhoundBinSensor_calculate_next_collection BinType.green_brown t -
          GreyhoundBinSensor_calculate_next_collection BinType.black t = 7) := by
  refine ⟨rfl, ?_⟩
  intro h
  rw [GreyhoundBinSensor_calc_eq_nextOccurrence, GreyhoundBinSensor_calc_eq_nextOccurrence,
    nextOccurrence_eq, nextOccurrence_eq]
  have hr : referenceFor BinType.green_brown = referenceFor BinType.black + 7 := rfl
  rw [hr] at h ⊢
  generalize referenceFor BinType.black = R at h ⊢
  split_ifs <;> omega

/-- Witness for C9 at evaluation date 2026-01-08 (day 20461), the
green-and-brown reference itself. -/
theorem C9_references_offset_seven_witness :
    referenceFor BinType.green_brown ≤ 20461 ∧
    (GreyhoundBinSensor_calculate_next_collection BinType.black 20461 -
        GreyhoundBinSensor_calculate_next_collection BinType.green_brown 20461 = 7 ∨
      GreyhoundBinSensor_calculate_next_collection BinType.green_brown 20461 -
        GreyhoundBinSensor_calculate_next_collection BinType.black 20461 = 7) :=
  ⟨by decide, (C9_references_offset_seven 20461).2 (by decide)⟩

/-- C10: bounded wait — on or after the black reference date 2026-01-01, the
dual-category selector's date is at most 7 days after the evaluation date. -/
theorem C10_bounded_wait (t : Int) (h : BLACK_BIN_REFERENCE_DATE ≤ t) :
    (NextCollectionSensor_calculate_next_collection t).1 ≤ t + 7 := by
  rw [NextCollectionSensor_fst_eq]
  have hd : nextOccurrence BLACK_BIN_REFERENCE_DATE t ≤ t + 7 ∨
      nextOccurrence (BLACK_BIN_REFERENCE_DATE + 7) t ≤ t + 7 := by
    rw [nextOccurrence_eq, nextOccurrence_eq]
    generalize BLACK_BIN_REFERENCE_DATE = R at h ⊢
    split_ifs <;> omega
  rcases hd with hd | hd
  · exact le_trans (min_le_left _ _) hd
  · exact le_trans (min_le_right _ _) hd

/-- Witness for C10 at evaluation date 2026-01-02 (day 20455): the selected
date is 2026-01-08 (day 20461), six days later. -/
theorem C10_bounded_wait_witness :
    BLACK_BIN_REFERENCE_DATE ≤ 20455 ∧
    (NextCollectionSensor_calculate_next_collection 20455).1 ≤ 20455 + 7 :=
  ⟨by decide, C10_bounded_wait 20455 (by decide)⟩

end GreyhoundBins
